import Mathlib

/-!
Verification of the attendance and face-recognition core of the
smart-attendance backend.  Definitions are shallow embeddings of
`app/models/session.py`, `app/models/attendance.py`,
`app/models/face_encoding.py`, `app/services/face_service.py`,
`app/utils/security.py` and the guard logic of `api/attendance.py`.
Times are modelled as integer seconds (Python `datetime` values),
scores and distances as rationals.
-/

namespace SmartAttendance

/-- Session status enumeration (`SessionStatus` in `session.py`). -/
inductive SessionStatus where
  | scheduled
  | in_progress
  | completed
  | cancelled
  | postponed
  deriving DecidableEq, Repr

/-- A QR token string.  `cipher` is the output of `encrypt_data` (Fernet
authenticated encryption) on some plaintext, represented by the list of the
colon-separated fields of that plaintext (each field is colon-free; joining
the fields with `":"` recovers the plaintext, and Python `split(":")`
returns exactly this list, which is the only way the verification code ever
observes the plaintext).  `plain` is any string that was never produced by
`encrypt_data` — in particular the unencrypted
`"session:{id}:token:{token}"` data stored by `ClassSession.generate_qr_code`. -/
inductive QRToken where
  | plain (data : String)
  | cipher (parts : List String)
  deriving DecidableEq, Repr

/-- `decrypt_data` in `security.py`: Fernet decryption, yielding the
plaintext (as its colon-split fields).  Decrypting a string that is not a
Fernet ciphertext raises `InvalidToken`, modelled as `none` (the caller
`verify_qr_token` catches every exception and returns `False`). -/
def decrypt_data : QRToken → Option (List String)
  | .plain _ => none
  | .cipher parts => some parts

/-- Left zero padding to two digits, as in the `%02d` fields of
`datetime.isoformat`. -/
def pad2 (n : Int) : String :=
  if 0 ≤ n ∧ n < 10 then "0" ++ toString n else toString n

/-- Civil date (year, month, day) of a day count relative to 1970-01-01,
the standard Gregorian conversion.  Divisions are by positive literals, and
Lean `/` on `Int` is floor division, which is exactly what the algorithm
needs. -/
def civil_from_days (z0 : Int) : Int × Int × Int :=
  let z := z0 + 719468
  let era := z / 146097
  let doe := z - era * 146097
  let yoe := (doe - doe / 1460 + doe / 36524 - doe / 146096) / 365
  let y := yoe + era * 400
  let doy := doe - (365 * yoe + yoe / 4 - yoe / 100)
  let mp := (5 * doy + 2) / 153
  let d := doy - (153 * mp + 2) / 5 + 1
  let m := mp + (if mp < 10 then 3 else -9)
  (y + (if m ≤ 2 then 1 else 0), m, d)

/-- The piece of `datetime.utcfromtimestamp(t).isoformat()` before the first
colon: `"YYYY-MM-DDTHH"`. -/
def isoformat_date_hour (t : Int) : String :=
  let ymd := civil_from_days (t / 86400)
  let secs := t % 86400
  toString ymd.1 ++ "-" ++ pad2 ymd.2.1 ++ "-" ++ pad2 ymd.2.2
    ++ "T" ++ pad2 (secs / 3600)

/-- The colon-split fields of `datetime.utcfromtimestamp(t).isoformat()`:
the isoformat string `"YYYY-MM-DDTHH:MM:SS"` contains exactly two colons, so
it splits into THREE fields — date-with-hour, minute, and second.  (Python
`utcnow()` also carries microseconds, making the last field
`"SS.ffffff"`; either way it is a single colon-free field, which is all the
verification logic observes.) -/
def isoformat_fields (t : Int) : List String :=
  [isoformat_date_hour t, pad2 (t % 86400 / 60 % 60), pad2 (t % 86400 % 60)]

/-- `generate_qr_token` in `security.py`: encrypts
`f"{session_id}:{timestamp}:{random_token}"` where `timestamp` is
`datetime.utcnow().isoformat()`.  Because the isoformat timestamp itself
contains two colons (and the session id and the url-safe random token are
colon-free), the plaintext splits on `":"` into FIVE fields, not three.
`now` is the issuance time, `nonce` the random token. -/
def generate_qr_token (session_id : Int) (now : Int) (nonce : Nat) : QRToken :=
  .cipher ([toString session_id] ++ isoformat_fields now ++ [toString nonce])

/-- Day count relative to 1970-01-01 of a civil date, the inverse Gregorian
conversion, used to model `datetime.fromisoformat` on a date. -/
def days_from_civil (y0 m d : Int) : Int :=
  let y := y0 - (if m ≤ 2 then 1 else 0)
  let era := y / 400
  let yoe := y - era * 400
  let mp := m + (if m > 2 then -3 else 9)
  let doy := (153 * mp + 2) / 5 + d - 1
  let doe := yoe * 365 + yoe / 4 - yoe / 100 + doy
  era * 146097 + doe - 719468

/-- `datetime.fromisoformat` applied to one colon-free field, as midnight
epoch seconds.  A colon-free string parses only in the date-only form
`"YYYY-MM-DD"`; anything else raises `ValueError`, which the caller turns
into a rejection, modelled as `none`. -/
def datetime_fromisoformat (s : String) : Option Int :=
  match (s.splitOn "-").map String.toNat? with
  | [some y, some m, some d] =>
      if 1 ≤ m ∧ m ≤ 12 ∧ 1 ≤ d ∧ d ≤ 31 then
        some (86400 * days_from_civil y m d)
      else none
  | _ => none

/-- `verify_qr_token` in `security.py`: decrypt, split the plaintext on
`":"`, reject unless exactly three parts, parse the first part as the
session id and compare, parse the second as a timestamp, then accept iff
`utcnow() <= token_time + expiry_minutes`.  Any exception along the way
(failed decryption, `int()` or `fromisoformat` parse failure) yields
`False`.  In the field-list representation the split is the identity. -/
def verify_qr_token (token : QRToken) (session_id : Int)
    (expiry_minutes : Int) (now : Int) : Bool :=
  match decrypt_data token with
  | none => false
  | some parts =>
    if parts.length ≠ 3 then false
    else
      match parts with
      | [token_session_id, timestamp, _] =>
          match token_session_id.toInt? with
          | none => false
          | some tsid =>
              if tsid ≠ session_id then false
              else
                match datetime_fromisoformat timestamp with
                | none => false
                | some token_time =>
                    decide (now ≤ token_time + expiry_minutes * 60)
      | _ => false

/-- The fields of `ClassSession` (`session.py`) that the verified operations
read or write.  Timestamps are integer seconds. -/
structure ClassSession where
  id : Int
  start_time : Int
  status : SessionStatus
  attendance_enabled : Bool
  check_in_started_at : Option Int
  check_in_ended_at : Option Int
  qr_code_data : Option QRToken
  qr_code_generated_at : Option Int
  qr_code_expires_at : Option Int
  total_students : Nat
  present_count : Nat
  absent_count : Nat
  late_count : Nat
  cancelled_at : Option Int
  cancellation_reason : Option String
  postponed_to : Option Int
  deriving DecidableEq, Repr

/-- `ClassSession.start_session`: unconditionally sets the status to
`in_progress` and derives the check-in window from `start_time`.  The model
method itself carries no guard; the guard lives in the API layer. -/
def ClassSession.start_session (s : ClassSession)
    (check_in_window_before check_in_window_after : Int) : ClassSession :=
  { s with
    status := .in_progress
    check_in_started_at := some (s.start_time - check_in_window_before * 60)
    check_in_ended_at := some (s.start_time + check_in_window_after * 60) }

/-- `ClassSession.end_session`: sets the status to `completed` and clamps the
check-in window end to now. -/
def ClassSession.end_session (s : ClassSession) (now : Int) : ClassSession :=
  { s with status := .completed, check_in_ended_at := some now }

/-- `ClassSession.cancel_session`. -/
def ClassSession.cancel_session (s : ClassSession) (now : Int)
    (reason : Option String) : ClassSession :=
  { s with status := .cancelled, cancelled_at := some now,
           cancellation_reason := reason }

/-- `ClassSession.generate_qr_code`: stores the UNENCRYPTED string
`"session:{id}:token:{token}"` as the QR data together with issue and expiry
timestamps, and returns that string.  The source comments that the data is
"to be encrypted in production"; as written it is not a `encrypt_data`
ciphertext, hence `QRToken.plain`. -/
def ClassSession.generate_qr_code (s : ClassSession) (expiry_minutes : Int)
    (now : Int) (nonce : Nat) : ClassSession × QRToken :=
  let qr_data : QRToken :=
    .plain ("session:" ++ toString s.id ++ ":token:" ++ toString nonce)
  ({ s with
      qr_code_data := some qr_data
      qr_code_generated_at := some now
      qr_code_expires_at := some (now + expiry_minutes * 60) },
   qr_data)

/-- `ClassSession.can_check_in` (property): in progress, attendance enabled,
and now inside the check-in window when both bounds are set. -/
def ClassSession.can_check_in (s : ClassSession) (now : Int) : Bool :=
  if !s.attendance_enabled || s.status ≠ .in_progress then false
  else
    match s.check_in_started_at, s.check_in_ended_at with
    | some a, some b => decide (a ≤ now) && decide (now ≤ b)
    | _, _ => true

/-- `ClassSession.is_qr_code_valid` (property): a stored token exists and its
stored expiry is strictly in the future. -/
def ClassSession.is_qr_code_valid (s : ClassSession) (now : Int) : Bool :=
  match s.qr_code_data, s.qr_code_expires_at with
  | some _, some exp => decide (now < exp)
  | _, _ => false

/-- Attendance status enumeration (`AttendanceStatus` in `attendance.py`). -/
inductive AttendanceStatus where
  | present
  | late
  | absent
  | excused
  deriving DecidableEq, Repr

/-- Check-in method enumeration (`CheckInMethod` in `attendance.py`). -/
inductive CheckInMethod where
  | face_recognition
  | qr_code
  | manual
  deriving DecidableEq, Repr

/-- The fields of `AttendanceRecord` (`attendance.py`) that the verified
operations read or write. -/
structure AttendanceRecord where
  session_id : Int
  student_id : Int
  status : AttendanceStatus
  check_in_method : Option CheckInMethod
  check_in_time : Option Int
  marked_at : Int
  minutes_late : Int
  is_late : Bool
  manually_marked : Bool
  marked_by_lecturer_id : Option Int
  override_reason : Option String
  is_excused : Bool
  excuse_reason : Option String
  excuse_document_url : Option String
  excuse_approved_by : Option Int
  excuse_approved_at : Option Int
  face_confidence_score : Option ℚ
  face_encoding_id : Option Int
  check_in_latitude : Option ℚ
  check_in_longitude : Option ℚ
  notes : Option String
  deriving DecidableEq, Repr

/-- Python truthiness of an optional float: `None` and `0.0` are falsy.
Used for the `if confidence:` guards in `mark_present` and `mark_late`. -/
def pyTruthy : Option ℚ → Bool
  | none => false
  | some q => q ≠ 0

/-- `AttendanceRecord.is_present` (property): status is `present` or `late`. -/
def AttendanceRecord.is_present (r : AttendanceRecord) : Bool :=
  r.status = .present || r.status = .late

/-- `AttendanceRecord.mark_present`: sets status, method, check-in time, and
the confidence score only when `confidence` is truthy. -/
def AttendanceRecord.mark_present (r : AttendanceRecord) (method : CheckInMethod)
    (check_in_time : Int) (confidence : Option ℚ) : AttendanceRecord :=
  { r with
    status := .present
    check_in_method := some method
    check_in_time := some check_in_time
    face_confidence_score :=
      if pyTruthy confidence then confidence else r.face_confidence_score }

/-- `AttendanceRecord.mark_late`: like `mark_present` but sets status `late`,
the `is_late` flag and `minutes_late`. -/
def AttendanceRecord.mark_late (r : AttendanceRecord) (minutes_late : Int)
    (method : CheckInMethod) (check_in_time : Int)
    (confidence : Option ℚ) : AttendanceRecord :=
  { r with
    status := .late
    is_late := true
    minutes_late := minutes_late
    check_in_method := some method
    check_in_time := some check_in_time
    face_confidence_score :=
      if pyTruthy confidence then confidence else r.face_confidence_score }

/-- `AttendanceRecord.manual_override`: sets the new status, flags the record
as manually marked, stamps the lecturer, reason and time; touches nothing
else. -/
def AttendanceRecord.manual_override (r : AttendanceRecord)
    (new_status : AttendanceStatus) (lecturer_id : Int)
    (reason : Option String) (now : Int) : AttendanceRecord :=
  { r with
    status := new_status
    manually_marked := true
    marked_by_lecturer_id := some lecturer_id
    override_reason := reason
    marked_at := now }

/-- `calculate_late_minutes` in `attendance.py`: zero when the check-in is not
after the session start, otherwise whole minutes of the positive delta
(Python `int(delta.total_seconds() / 60)` truncates, which equals floor for a
positive delta). -/
def calculate_late_minutes (check_in_time session_start_time : Int) : Int :=
  if check_in_time ≤ session_start_time then 0
  else ((check_in_time - session_start_time).toNat / 60 : Nat)

/-- `is_check_in_late` in `attendance.py`: strictly more than the threshold
of minutes late. -/
def is_check_in_late (check_in_time session_start_time : Int)
    (late_threshold_minutes : Int) : Bool :=
  calculate_late_minutes check_in_time session_start_time > late_threshold_minutes

/-- `ClassSession.update_attendance_stats`: recounts the cached per-status
tallies from the attendance records of the session. -/
def ClassSession.update_attendance_stats (s : ClassSession)
    (records : List AttendanceRecord) : ClassSession :=
  { s with
    present_count := (records.filter (fun r => r.status = .present)).length
    late_count := (records.filter (fun r => r.status = .late)).length
    absent_count := (records.filter (fun r => r.status = .absent)).length }

/-- The HTTP 400 rejections raised by the attendance API endpoints
(`api/attendance.py`), named after the spec error taxonomy.
`invalidTransition` covers the session transition guards
("Session already in progress" / "Session is not in progress"). -/
inductive ApiError where
  | invalidTransition
  | sessionNotActive
  | checkInWindowClosed
  | alreadyCheckedIn
  | recognitionFailed
  | faceMismatch
  | invalidQRToken
  deriving DecidableEq, Repr

/-- The `start_session` endpoint guard and effect: rejects only when the
status is already `in_progress`; otherwise runs
`ClassSession.start_session` and mints the first QR code.
Authentication, ownership checks and the HTTP response body are outside the
modelled core. -/
def start_session_api (s : ClassSession)
    (check_in_window_before check_in_window_after expiry_minutes : Int)
    (now : Int) (nonce : Nat) : Except ApiError ClassSession :=
  if s.status = .in_progress then .error .invalidTransition
  else
    .ok (((s.start_session check_in_window_before check_in_window_after
            ).generate_qr_code expiry_minutes now nonce).1)

/-- The `end_session` endpoint guard and effect: rejects unless the status is
`in_progress`; otherwise runs `ClassSession.end_session` and recomputes the
cached tallies.  The auto-mark-absent branch is a no-op in the source. -/
def end_session_api (s : ClassSession) (records : List AttendanceRecord)
    (now : Int) : Except ApiError ClassSession :=
  if s.status ≠ .in_progress then .error .invalidTransition
  else .ok ((s.end_session now).update_attendance_stats records)

/-- The `refresh_qr_code` endpoint: unconditionally mints and stores a new QR
token via `ClassSession.generate_qr_code`, returning the new session state
and the new token. -/
def refresh_qr_code (s : ClassSession) (expiry_minutes : Int) (now : Int)
    (nonce : Nat) : ClassSession × QRToken :=
  s.generate_qr_code expiry_minutes now nonce

/-- The `check_in_with_face` endpoint, from the session-status guard onward:
rejects an inactive session, a closed window, a repeat check-in on a record
already denoting presence, a failed recognition (`recognition = none`), and a
recognized identity different from the logged-in student; otherwise computes
the lateness exactly as the source does and updates the existing record in
place or creates a fresh one.  `recognition` is the
`(student_id, confidence)` outcome of `face_service.recognize_face`; the
session tally refresh and the HTTP response body are not part of the record
result. -/
def check_in_with_face (session : ClassSession)
    (existing : Option AttendanceRecord) (student_id : Int)
    (recognition : Option (Int × ℚ)) (late_threshold : Int)
    (now : Int) : Except ApiError AttendanceRecord :=
  if session.status ≠ .in_progress then .error .sessionNotActive
  else if !session.can_check_in now then .error .checkInWindowClosed
  else if (existing.map AttendanceRecord.is_present).getD false then
    .error .alreadyCheckedIn
  else
    match recognition with
    | none => .error .recognitionFailed
    | some (recognized_student_id, confidence) =>
      if recognized_student_id ≠ student_id then .error .faceMismatch
      else
        let minutes_late : Int :=
          if now > session.start_time
          then ((now - session.start_time).toNat / 60 : Nat) else 0
        let is_late : Bool := minutes_late > late_threshold
        .ok (match existing with
          | some r =>
            if is_late then
              r.mark_late minutes_late .face_recognition now (some confidence)
            else r.mark_present .face_recognition now (some confidence)
          | none =>
            { session_id := session.id
              student_id := student_id
              status := if is_late then .late else .present
              check_in_method := some .face_recognition
              check_in_time := some now
              marked_at := now
              minutes_late := minutes_late
              is_late := is_late
              manually_marked := false
              marked_by_lecturer_id := none
              override_reason := none
              is_excused := false
              excuse_reason := none
              excuse_document_url := none
              excuse_approved_by := none
              excuse_approved_at := none
              face_confidence_score := some confidence
              face_encoding_id := none
              check_in_latitude := none
              check_in_longitude := none
              notes := none })

/-- The attendance record stored for `(session, student)` after a
`check_in_with_face` attempt: the endpoint raises (commits nothing) on every
error branch, so an error leaves the previously stored record in place. -/
def check_in_stored_after (session : ClassSession)
    (existing : Option AttendanceRecord) (student_id : Int)
    (recognition : Option (Int × ℚ)) (late_threshold : Int)
    (now : Int) : Option AttendanceRecord :=
  match check_in_with_face session existing student_id recognition
      late_threshold now with
  | .error _ => existing
  | .ok r => some r

/-- The fields of `FaceEncoding` (`face_encoding.py`) that the verified
operations read or write.  `Emb` is the type of stored embedding payloads;
the Euclidean distance over deserialized numpy arrays is external numeric
code and enters as an explicit `dist` argument where needed. -/
structure FaceEncoding (Emb : Type) where
  id : Nat
  student_id : Int
  encoding : Emb
  quality_score : Option ℚ
  is_active : Bool
  is_primary : Bool
  deriving DecidableEq, Repr

/-- `FaceEncoding.quality_grade` (property): Python tests
`if not self.quality_score`, so a missing score AND a score of exactly `0.0`
(falsy float) both yield `"N/A"`; otherwise fixed thresholds. -/
def FaceEncoding.quality_grade {Emb : Type} (e : FaceEncoding Emb) : String :=
  match e.quality_score with
  | none => "N/A"
  | some q =>
    if q = 0 then "N/A"
    else if q ≥ 9/10 then "A"
    else if q ≥ 8/10 then "B"
    else if q ≥ 7/10 then "C"
    else if q ≥ 6/10 then "D"
    else "F"

/-- `FaceEncoding.mark_as_primary`: sets the primary flag on this encoding
only; no other encoding is demoted. -/
def FaceEncoding.mark_as_primary {Emb : Type} (e : FaceEncoding Emb) :
    FaceEncoding Emb :=
  { e with is_primary := true }

/-- One step of the `find_best_match` loop (`face_encoding.py`): take the new
candidate iff its distance both improves on the best so far and is within
tolerance (`best = none` is the initial `best_distance = inf`). -/
def find_best_match_step (tolerance : ℚ) (best : Option (Nat × ℚ))
    (candidate : Nat × ℚ) : Option (Nat × ℚ) :=
  match best with
  | none =>
      if candidate.2 ≤ tolerance then some candidate else none
  | some (best_id, best_distance) =>
      if candidate.2 < best_distance ∧ candidate.2 ≤ tolerance then
        some candidate
      else some (best_id, best_distance)

/-- `find_best_match` (`face_encoding.py`): scan the candidate list keeping
the minimal within-tolerance distance; on a hit return
`(id, distance, 1 - distance / tolerance)`, otherwise `none`.
`dist` is `calculate_encoding_distance` specialised to the candidate
embedding type. -/
def find_best_match {Emb : Type} (dist : Emb → Emb → ℚ) (target : Emb)
    (candidate_encodings : List (Nat × Emb)) (tolerance : ℚ) :
    Option (Nat × ℚ × ℚ) :=
  match candidate_encodings.foldl
      (fun best c => find_best_match_step tolerance best (c.1, dist target c.2))
      none with
  | none => none
  | some (best_id, best_distance) =>
      some (best_id, best_distance, 1 - best_distance / tolerance)

/-- The gallery rows, mirroring the `face_encodings` table slice that
`enroll_student_face` queries and writes. -/
structure EnrollState (Emb : Type) where
  encodings : List (FaceEncoding Emb)
  next_id : Nat
  deriving Repr

/-- The active encodings of one student, as queried by
`enroll_student_face` (`student_id` match and `is_active == True`). -/
def EnrollState.active_for {Emb : Type} (st : EnrollState Emb) (student_id : Int) :
    List (FaceEncoding Emb) :=
  st.encodings.filter (fun e => e.student_id = student_id ∧ e.is_active)

/-- Set the primary flag on the row with the given id
(`FaceEncoding.mark_as_primary` applied through the session). -/
def EnrollState.promote {Emb : Type} (st : EnrollState Emb) (id : Nat) :
    EnrollState Emb :=
  { st with
    encodings := st.encodings.map (fun e =>
      if e.id = id then e.mark_as_primary else e) }

/-- `FaceRecognitionService.enroll_student_face`, from the duplicate check
onward (face detection, encoding extraction and quality scoring already
yielded `emb` and `quality_score`): reject when the distance to any existing
active embedding of the student is below `0.3`; otherwise insert the new
active, non-primary row, then mark it primary iff it is now the only active
row for the student or its quality exceeds `0.8`.  Returns the new state and
the new row id. -/
def enroll_student_face {Emb : Type} (dist : Emb → Emb → ℚ)
    (st : EnrollState Emb) (student_id : Int) (emb : Emb)
    (quality_score : ℚ) : Except String (EnrollState Emb × Nat) :=
  let existing_encodings := st.active_for student_id
  if existing_encodings.any (fun e => dist emb e.encoding < 3/10) then
    .error "This photo appears to be a duplicate or very similar to an existing photo"
  else
    let new_row : FaceEncoding Emb :=
      { id := st.next_id
        student_id := student_id
        encoding := emb
        quality_score := some quality_score
        is_active := true
        is_primary := false }
    let st1 : EnrollState Emb :=
      { encodings := st.encodings ++ [new_row], next_id := st.next_id + 1 }
    let student_encodings := st1.active_for student_id
    if student_encodings.length = 1 ∨ quality_score > 8/10 then
      .ok (st1.promote new_row.id, new_row.id)
    else .ok (st1, new_row.id)

/-- Run one enrollment, keeping the previous state when it is rejected
(the endpoint rolls back on failure). -/
def enroll_or_keep {Emb : Type} (dist : Emb → Emb → ℚ)
    (st : EnrollState Emb) (student_id : Int) (emb : Emb)
    (quality_score : ℚ) : EnrollState Emb :=
  match enroll_student_face dist st student_id emb quality_score with
  | .ok (st2, _) => st2
  | .error _ => st

/-- Number of active rows of the student currently flagged primary. -/
def EnrollState.primary_count {Emb : Type} (st : EnrollState Emb)
    (student_id : Int) : Nat :=
  ((st.active_for student_id).filter (fun e => e.is_primary)).length

/-- Little-endian bytes of one 64-bit word, the bit pattern of one float64
vector component as pickled by `serialize_encoding`. -/
def wordToBytes (x : Nat) : List Nat :=
  [x % 256, x / 256 % 256, x / 256 ^ 2 % 256, x / 256 ^ 3 % 256,
   x / 256 ^ 4 % 256, x / 256 ^ 5 % 256, x / 256 ^ 6 % 256, x / 256 ^ 7 % 256]

/-- Reassemble one 64-bit word from eight little-endian bytes. -/
def bytesToWord (b0 b1 b2 b3 b4 b5 b6 b7 : Nat) : Nat :=
  b0 + 256 * b1 + 256 ^ 2 * b2 + 256 ^ 3 * b3 + 256 ^ 4 * b4 +
    256 ^ 5 * b5 + 256 ^ 6 * b6 + 256 ^ 7 * b7

/-- `serialize_encoding` (`face_encoding.py`): `pickle.dumps` of the numpy
array.  Modelled at the payload level: the byte stream carrying each 64-bit
component bit pattern in order, which is the content the pickle codec
round-trips losslessly. -/
def serialize_encoding (encoding_array : List Nat) : List Nat :=
  encoding_array.flatMap wordToBytes

/-- `deserialize_encoding` (`face_encoding.py`): `pickle.loads`, recovering
the component bit patterns from the byte stream. -/
def deserialize_encoding : List Nat → List Nat
  | b0 :: b1 :: b2 :: b3 :: b4 :: b5 :: b6 :: b7 :: rest =>
      bytesToWord b0 b1 b2 b3 b4 b5 b6 b7 :: deserialize_encoding rest
  | _ => []

/-! Concrete fixtures used by counterexamples and witnesses. -/

/-- A live session: in progress, attendance enabled, no explicit window. -/
def sessionLive : ClassSession :=
  { id := 1, start_time := 0, status := .in_progress, attendance_enabled := true,
    check_in_started_at := none, check_in_ended_at := none,
    qr_code_data := none, qr_code_generated_at := none, qr_code_expires_at := none,
    total_students := 0, present_count := 0, absent_count := 0, late_count := 0,
    cancelled_at := none, cancellation_reason := none, postponed_to := none }

/-- A session that already ran to completion. -/
def sessionCompleted : ClassSession := { sessionLive with status := .completed }

/-- A live session with id 7, for the QR token scenarios. -/
def sessionSeven : ClassSession := { sessionLive with id := 7 }

/-- An attendance record whose status already denotes presence. -/
def presentRecord : AttendanceRecord :=
  { session_id := 1, student_id := 2, status := .present,
    check_in_method := some .face_recognition, check_in_time := some 10,
    marked_at := 10, minutes_late := 0, is_late := false,
    manually_marked := false, marked_by_lecturer_id := none,
    override_reason := none, is_excused := false, excuse_reason := none,
    excuse_document_url := none, excuse_approved_by := none,
    excuse_approved_at := none, face_confidence_score := some (9/10),
    face_encoding_id := none, check_in_latitude := none,
    check_in_longitude := none, notes := none }

/-- A face encoding whose quality score is present and exactly `0.0`. -/
def zeroScoreEncoding : FaceEncoding ℚ :=
  { id := 0, student_id := 1, encoding := 0, quality_score := some 0,
    is_active := true, is_primary := false }

/-- Euclidean distance on one-dimensional rational embeddings. -/
def qdist : ℚ → ℚ → ℚ := fun x y => |x - y|

/-- The gallery after the three-insert scenario of the primary invariant:
student 1 enrolls embeddings at mutual distance 1 with qualities
`0.7`, then `0.9` (highest, above `0.8`), then `0.5`. -/
def threeInsertState : EnrollState ℚ :=
  enroll_or_keep qdist
    (enroll_or_keep qdist
      (enroll_or_keep qdist ⟨[], 0⟩ 1 0 (7/10)) 1 1 (9/10)) 1 2 (1/2)

/-! Theorems settling the claims. -/

/-- C10: `manual_override` changes exactly status, `manually_marked`,
`marked_by_lecturer_id`, `override_reason` and `marked_at`; the check-in
fields, lateness fields, excuse flag, confidence and geolocation are
untouched, so overriding a checked-in record to `absent` keeps its old
`check_in_time` and `minutes_late`. -/
theorem c10_manual_override_frame (r : AttendanceRecord)
    (new_status : AttendanceStatus) (lecturer_id : Int)
    (reason : Option String) (now : Int) :
    (r.manual_override new_status lecturer_id reason now).status = new_status ∧
    (r.manual_override new_status lecturer_id reason now).manually_marked = true ∧
    (r.manual_override new_status lecturer_id reason now).marked_by_lecturer_id
        = some lecturer_id ∧
    (r.manual_override new_status lecturer_id reason now).override_reason = reason ∧
    (r.manual_override new_status lecturer_id reason now).marked_at = now ∧
    (r.manual_override new_status lecturer_id reason now).check_in_time
        = r.check_in_time ∧
    (r.manual_override new_status lecturer_id reason now).check_in_method
        = r.check_in_method ∧
    (r.manual_override new_status lecturer_id reason now).minutes_late
        = r.minutes_late ∧
    (r.manual_override new_status lecturer_id reason now).is_late = r.is_late ∧
    (r.manual_override new_status lecturer_id reason now).is_excused
        = r.is_excused ∧
    (r.manual_override new_status lecturer_id reason now).face_confidence_score
        = r.face_confidence_score ∧
    (r.manual_override new_status lecturer_id reason now).check_in_latitude
        = r.check_in_latitude ∧
    (r.manual_override new_status lecturer_id reason now).check_in_longitude
        = r.check_in_longitude :=
  ⟨rfl, rfl, rfl, rfl, rfl, rfl, rfl, rfl, rfl, rfl, rfl, rfl, rfl⟩

/-- C8 counterexample: a present quality score of exactly `0.0` is graded
`"N/A"`, not `"F"`, because Python `if not self.quality_score` treats the
float `0.0` as missing. -/
theorem c8_counterexample :
    zeroScoreEncoding.quality_score = some 0 ∧
    zeroScoreEncoding.quality_grade = "N/A" ∧
    zeroScoreEncoding.quality_grade ≠ "F" :=
  ⟨rfl, rfl, by decide⟩

/-- C8 amended: for a present, nonzero score the fixed thresholds hold
(`≥ 0.9` A, `≥ 0.8` B, `≥ 0.7` C, `≥ 0.6` D, else F); `"N/A"` is returned
when the score is absent or exactly `0.0`. -/
theorem c8_quality_grade (e : FaceEncoding ℚ) (q : ℚ)
    (hq : e.quality_score = some q) (hq0 : q ≠ 0) :
    (9/10 ≤ q → e.quality_grade = "A") ∧
    (8/10 ≤ q ∧ q < 9/10 → e.quality_grade = "B") ∧
    (7/10 ≤ q ∧ q < 8/10 → e.quality_grade = "C") ∧
    (6/10 ≤ q ∧ q < 7/10 → e.quality_grade = "D") ∧
    (q < 6/10 → e.quality_grade = "F") := by
  unfold FaceEncoding.quality_grade
  rw [hq]
  refine ⟨fun h => ?_, fun h => ?_, fun h => ?_, fun h => ?_, fun h => ?_⟩ <;>
    simp only [hq0, if_false] <;> split_ifs <;> first | rfl | linarith

/-- C8 witness: the amended claim evaluated at a concrete encoding with a
present nonzero score of `0.95`. -/
theorem c8_quality_grade_witness :
    ({ zeroScoreEncoding with quality_score := some (19/20) } :
        FaceEncoding ℚ).quality_score = some (19/20) ∧ (19/20 : ℚ) ≠ 0 ∧
    (9/10 ≤ (19/20 : ℚ) ∧
      ({ zeroScoreEncoding with quality_score := some (19/20) } :
        FaceEncoding ℚ).quality_grade = "A") :=
  ⟨rfl, by norm_num,
   by norm_num,
   (c8_quality_grade { zeroScoreEncoding with quality_score := some (19/20) }
      (19/20) rfl (by norm_num)).1 (by norm_num)⟩

/-- C1 counterexample: the `start_session` endpoint guard rejects only an
`in_progress` session, so starting a `completed` session succeeds instead of
failing with `InvalidTransition` as the claim requires. -/
theorem c1_counterexample :
    sessionCompleted.status = .completed ∧
    start_session_api sessionCompleted 10 15 15 0 0
        ≠ .error .invalidTransition ∧
    (∃ s2, start_session_api sessionCompleted 10 15 15 0 0 = .ok s2) := by
  have hok : start_session_api sessionCompleted 10 15 15 0 0
      = .ok (((sessionCompleted.start_session 10 15
          ).generate_qr_code 15 0 0).1) := rfl
  refine ⟨rfl, ?_, ⟨_, hok⟩⟩
  rw [hok]
  exact fun h => Except.noConfusion h

/-- C1 amended: `start()` fails with `InvalidTransition` exactly when the
session is already `in_progress` (it succeeds from `scheduled`, `completed`,
`cancelled` and `postponed`); `end()` succeeds exactly when the session is
`in_progress` and fails with `InvalidTransition` otherwise. -/
theorem c1_transition_guards (s : ClassSession)
    (before after expiry now : Int) (nonce : Nat)
    (records : List AttendanceRecord) (now2 : Int) :
    (start_session_api s before after expiry now nonce
        = .error .invalidTransition ↔ s.status = .in_progress) ∧
    ((∃ s2, end_session_api s records now2 = .ok s2)
        ↔ s.status = .in_progress) := by
  constructor
  · unfold start_session_api
    split
    · rename_i h
      exact iff_of_true rfl h
    · rename_i h
      exact iff_of_false (fun hc => Except.noConfusion hc) h
  · unfold end_session_api
    split
    · rename_i h
      refine iff_of_false ?_ h
      rintro ⟨s2, hs2⟩
      exact Except.noConfusion hs2
    · rename_i h
      exact iff_of_true ⟨_, rfl⟩ (not_not.mp h)

/-- C3: no token the program mints is ever accepted by `verify_qr_token`.
The session stores its QR data as the unencrypted string
`"session:{id}:token:{token}"`, whose decryption fails, so a session-issued
token with `expiry_minutes = 15` is rejected even at `T+14:59` — against
the claim that it is accepted there.  The other mint in the repository, the
security helper `generate_qr_token` (imported by the attendance API but
never called), fares no better: its isoformat timestamp contains two
colons, so the decrypted plaintext splits into five parts and the
three-part check rejects it at `T+14:59` as well. -/
theorem c3_token_validation :
    (sessionSeven.generate_qr_code 15 0 42).1.qr_code_expires_at = some 900 ∧
    verify_qr_token (sessionSeven.generate_qr_code 15 0 42).2 7 15 899
        = false ∧
    (Option.map List.length (decrypt_data (generate_qr_token 7 0 42))
        = some 5) ∧
    verify_qr_token (generate_qr_token 7 0 42) 7 15 899 = false :=
  ⟨rfl, rfl, rfl, rfl⟩

/-- C6: after `refresh_qr_code` mints and stores a new token, the previously
issued token is rejected by every subsequent validation, even while its own
expiry window is still open — as the claim states.  The rejection is in
fact unconditional rather than an effect of the refresh: `verify_qr_token`
rejects every token either mint in the program produces at every time — the
session-minted QR data is not a ciphertext at all, and the plaintext of the
security-helper mint splits on the colons of its isoformat timestamp into
five parts, failing the three-part check. -/
theorem c6_previous_token_rejected_after_refresh (s : ClassSession)
    (expiry now : Int) (nonce : Nat) (expiry2 rnow : Int) (nonce2 : Nat)
    (sid m now2 sid2 t : Int) (n2 : Nat) :
    (refresh_qr_code ((s.generate_qr_code expiry now nonce).1)
        expiry2 rnow nonce2).1.qr_code_generated_at = some rnow ∧
    verify_qr_token ((s.generate_qr_code expiry now nonce).2) sid m now2
        = false ∧
    verify_qr_token (generate_qr_token sid2 t n2) sid m now2 = false :=
  ⟨rfl, rfl, rfl⟩

/-- C4: a check-in attempt against an in-progress session with an open
window, when a record already exists for the `(session, student)` pair whose
status denotes presence, is rejected with `AlreadyCheckedIn` before any
mutation, so the stored record is unchanged in every field. -/
theorem c4_already_checked_in (session : ClassSession) (r : AttendanceRecord)
    (student_id : Int) (recognition : Option (Int × ℚ))
    (late_threshold now : Int)
    (h1 : session.status = .in_progress)
    (h2 : session.can_check_in now = true)
    (h3 : r.is_present = true) :
    check_in_with_face session (some r) student_id recognition
        late_threshold now = .error .alreadyCheckedIn ∧
    check_in_stored_after session (some r) student_id recognition
        late_threshold now = some r := by
  have hmain : check_in_with_face session (some r) student_id recognition
      late_threshold now = .error .alreadyCheckedIn := by
    unfold check_in_with_face
    rw [h1, h2]
    simp [h3]
  exact ⟨hmain, by unfold check_in_stored_after; rw [hmain]⟩

/-- C4 witness: the repeat check-in rejection evaluated at a concrete live
session and a concrete record already marked present. -/
theorem c4_already_checked_in_witness :
    sessionLive.status = .in_progress ∧
    sessionLive.can_check_in 100 = true ∧
    presentRecord.is_present = true ∧
    (check_in_with_face sessionLive (some presentRecord) 2 none 5 100
        = .error .alreadyCheckedIn ∧
     check_in_stored_after sessionLive (some presentRecord) 2 none 5 100
        = some presentRecord) :=
  ⟨rfl, rfl, rfl,
   c4_already_checked_in sessionLive presentRecord 2 none 5 100 rfl rfl rfl⟩

/-- The guarded truncating division of the lateness computation equals the
formula `max 0 (floor((t - s) / 60))` of the claim. -/
theorem late_minutes_eq_floor (t s : Int) :
    (if t ≤ s then (0 : Int) else ((t - s).toNat / 60 : Nat))
      = max 0 ((t - s).fdiv 60) := by
  rw [Int.fdiv_eq_ediv _ (by norm_num)]
  rcases le_or_lt t s with h | h
  · rw [if_pos h, max_eq_left (by omega)]
  · rw [if_neg (by omega), max_eq_right (by omega)]
    omega

/-- C5: lateness classification.  `minutes_late` is
`max 0 (floor((observed - scheduled_start) / 60))` seconds-to-minutes,
`is_late` holds iff `minutes_late` strictly exceeds the threshold, and a
fresh face check-in stores status `late` when late and `present` otherwise
with exactly those values. -/
theorem c5_lateness (session : ClassSession) (student_id : Int)
    (confidence : ℚ) (late_threshold t : Int)
    (h1 : session.status = .in_progress)
    (h2 : session.can_check_in t = true) :
    calculate_late_minutes t session.start_time
        = max 0 ((t - session.start_time).fdiv 60) ∧
    is_check_in_late t session.start_time late_threshold
        = decide (calculate_late_minutes t session.start_time
            > late_threshold) ∧
    ∃ r, check_in_with_face session none student_id
          (some (student_id, confidence)) late_threshold t = .ok r ∧
        r.minutes_late = calculate_late_minutes t session.start_time ∧
        r.is_late = decide (r.minutes_late > late_threshold) ∧
        r.status = (if r.is_late then .late else .present) := by
  refine ⟨late_minutes_eq_floor t session.start_time, rfl, ?_⟩
  have hrun : ∃ r, check_in_with_face session none student_id
      (some (student_id, confidence)) late_threshold t = .ok r := by
    unfold check_in_with_face
    simp [h1, h2]
  obtain ⟨r, hr⟩ := hrun
  refine ⟨r, hr, ?_⟩
  have hval : check_in_with_face session none student_id
      (some (student_id, confidence)) late_threshold t = .ok
        { session_id := session.id
          student_id := student_id
          status := if (decide ((if t > session.start_time
              then (((t - session.start_time).toNat / 60 : Nat) : Int)
              else 0) > late_threshold) : Bool)
            then .late else .present
          check_in_method := some .face_recognition
          check_in_time := some t
          marked_at := t
          minutes_late := if t > session.start_time
            then (((t - session.start_time).toNat / 60 : Nat) : Int) else 0
          is_late := decide ((if t > session.start_time
            then (((t - session.start_time).toNat / 60 : Nat) : Int)
            else 0) > late_threshold)
          manually_marked := false
          marked_by_lecturer_id := none
          override_reason := none
          is_excused := false
          excuse_reason := none
          excuse_document_url := none
          excuse_approved_by := none
          excuse_approved_at := none
          face_confidence_score := some confidence
          face_encoding_id := none
          check_in_latitude := none
          check_in_longitude := none
          notes := none } := by
    unfold check_in_with_face
    simp [h1, h2]
  rw [hval] at hr
  cases hr
  refine ⟨?_, rfl, rfl⟩
  show (if t > session.start_time
      then (((t - session.start_time).toNat / 60 : Nat) : Int) else 0)
    = calculate_late_minutes t session.start_time
  unfold calculate_late_minutes
  rcases le_or_lt t session.start_time with h | h
  · rw [if_neg (by omega), if_pos h]
  · rw [if_pos h, if_neg (by omega)]

/-- C5 witness: a check-in six minutes after a session that started at time
zero, with a threshold of five minutes, evaluated through the theorem. -/
theorem c5_lateness_witness :
    sessionLive.status = .in_progress ∧
    sessionLive.can_check_in 360 = true ∧
    (calculate_late_minutes 360 sessionLive.start_time
        = max 0 ((360 - sessionLive.start_time).fdiv 60) ∧
     is_check_in_late 360 sessionLive.start_time 5
        = decide (calculate_late_minutes 360 sessionLive.start_time > 5) ∧
     ∃ r, check_in_with_face sessionLive none 2 (some (2, 1/2)) 5 360
          = .ok r ∧
        r.minutes_late = calculate_late_minutes 360 sessionLive.start_time ∧
        r.is_late = decide (r.minutes_late > 5) ∧
        r.status = (if r.is_late then .late else .present)) :=
  ⟨rfl, rfl, c5_lateness sessionLive 2 (1/2) 5 360 rfl rfl⟩

/-- C9: the embedding codec is lossless — deserializing the serialized form
of any vector of 64-bit component bit patterns returns the vector exactly,
component for component. -/
theorem c9_codec_roundtrip (v : List Nat) (h : ∀ x ∈ v, x < 2 ^ 64) :
    deserialize_encoding (serialize_encoding v) = v := by
  induction v with
  | nil => rfl
  | cons x t ih =>
      have hx : x < 2 ^ 64 := h x (List.mem_cons_self x t)
      have ht : ∀ y ∈ t, y < 2 ^ 64 := fun y hy => h y (List.mem_cons_of_mem x hy)
      show deserialize_encoding (wordToBytes x ++ serialize_encoding t) = x :: t
      unfold wordToBytes
      simp only [List.cons_append, List.nil_append]
      rw [show ∀ b0 b1 b2 b3 b4 b5 b6 b7 rest,
          deserialize_encoding
            (b0 :: b1 :: b2 :: b3 :: b4 :: b5 :: b6 :: b7 :: rest)
          = bytesToWord b0 b1 b2 b3 b4 b5 b6 b7 :: deserialize_encoding rest
        from fun _ _ _ _ _ _ _ _ _ => rfl]
      rw [ih ht]
      unfold bytesToWord
      congr 1
      omega

/-- C9 witness: the codec round trip evaluated on a concrete vector whose
components include the extreme 64-bit pattern. -/
theorem c9_codec_roundtrip_witness :
    (∀ x ∈ [0, 1, 18446744073709551615], x < 2 ^ 64) ∧
    deserialize_encoding (serialize_encoding [0, 1, 18446744073709551615])
      = [0, 1, 18446744073709551615] :=
  ⟨by decide, c9_codec_roundtrip [0, 1, 18446744073709551615] (by decide)⟩

/-- C2 counterexample: in the exact scenario of the claim — three distinct-enough
embeddings for one student with qualities `0.7`, then `0.9` (above `0.8` and
above the first), then `0.5` — the first insert is promoted as the first
active embedding and the second is promoted for high quality without the
first being demoted, leaving TWO active embeddings marked primary, not one. -/
theorem c2_counterexample :
    (9/10 : ℚ) > 8/10 ∧ (9/10 : ℚ) > 7/10 ∧
    threeInsertState.primary_count 1 = 2 := by
  refine ⟨by norm_num, by norm_num, ?_⟩
  norm_num [threeInsertState, enroll_or_keep, enroll_student_face,
    EnrollState.active_for, EnrollState.promote, EnrollState.primary_count,
    qdist, FaceEncoding.mark_as_primary, List.filter, List.any]

/-- C2 amended: promotion never demotes, so the primary flag is not
exclusive.  Starting from an empty gallery, after three accepted inserts for
one person where the second quality exceeds `0.8` (and the quality of the first), the
first and second embeddings are BOTH primary and the third is primary
exactly when its quality also exceeds `0.8`: the number of active primary
embeddings is 3 or 2, never 1. -/
theorem c2_primary_not_exclusive {Emb : Type} (dist : Emb → Emb → ℚ)
    (e1 e2 e3 : Emb) (q1 q2 q3 : ℚ) (sid : Int)
    (h21 : ¬ dist e2 e1 < 3/10) (h31 : ¬ dist e3 e1 < 3/10)
    (h32 : ¬ dist e3 e2 < 3/10)
    (hq2 : q2 > 8/10) (_hq21 : q2 > q1) :
    (enroll_or_keep dist (enroll_or_keep dist
        (enroll_or_keep dist ⟨[], 0⟩ sid e1 q1) sid e2 q2) sid e3 q3
      ).primary_count sid = if q3 > 8/10 then 3 else 2 := by
  have h_a : enroll_or_keep dist ⟨[], 0⟩ sid e1 q1
      = ⟨[⟨0, sid, e1, some q1, true, true⟩], 1⟩ := by
    simp [enroll_or_keep, enroll_student_face, EnrollState.active_for,
      EnrollState.promote, FaceEncoding.mark_as_primary]
  rw [h_a]
  have h_b : enroll_or_keep dist
        ⟨[⟨0, sid, e1, some q1, true, true⟩], 1⟩ sid e2 q2
      = ⟨[⟨0, sid, e1, some q1, true, true⟩,
          ⟨1, sid, e2, some q2, true, true⟩], 2⟩ := by
    simp [enroll_or_keep, enroll_student_face, EnrollState.active_for,
      EnrollState.promote, FaceEncoding.mark_as_primary, h21, hq2]
  rw [h_b]
  by_cases hq3 : q3 > 8/10
  · rw [if_pos hq3]
    simp [enroll_or_keep, enroll_student_face, EnrollState.active_for,
      EnrollState.promote, FaceEncoding.mark_as_primary,
      EnrollState.primary_count, h31, h32, hq3]
  · rw [if_neg hq3]
    simp [enroll_or_keep, enroll_student_face, EnrollState.active_for,
      EnrollState.promote, FaceEncoding.mark_as_primary,
      EnrollState.primary_count, h31, h32, hq3]

/-- C2 witness: the amended count evaluated on the concrete scenario of the
counterexample state (qualities `0.7`, `0.9`, `0.5`, mutual distances 1). -/
theorem c2_primary_not_exclusive_witness :
    (¬ qdist 1 0 < 3/10) ∧ (¬ qdist 2 0 < 3/10) ∧ (¬ qdist 2 1 < 3/10) ∧
    (9/10 : ℚ) > 8/10 ∧ (9/10 : ℚ) > 7/10 ∧
    (enroll_or_keep qdist (enroll_or_keep qdist
        (enroll_or_keep qdist ⟨[], 0⟩ 1 0 (7/10)) 1 1 (9/10)) 1 2 (1/2)
      ).primary_count 1 = if (1/2 : ℚ) > 8/10 then 3 else 2 :=
  ⟨by norm_num [qdist], by norm_num [qdist], by norm_num [qdist],
   by norm_num, by norm_num,
   c2_primary_not_exclusive qdist 0 1 2 (7/10) (9/10) (1/2) 1
     (by norm_num [qdist]) (by norm_num [qdist]) (by norm_num [qdist])
     (by norm_num) (by norm_num)⟩

/-- The loop step yields no best iff there was none and the new candidate is
out of tolerance. -/
theorem step_none_iff (tol : ℚ) (acc : Option (Nat × ℚ)) (x : Nat × ℚ) :
    find_best_match_step tol acc x = none ↔ acc = none ∧ tol < x.2 := by
  cases acc with
  | none =>
      simp only [find_best_match_step]
      split_ifs with hle
      · simp only [reduceCtorEq, false_iff, not_and, not_lt]
        intro _
        exact hle
      · simp only [true_iff, true_and]
        exact lt_of_not_le hle
  | some p =>
      obtain ⟨i0, d0⟩ := p
      simp only [find_best_match_step]
      split_ifs <;> simp

/-- The loop step keeps either a within-tolerance new candidate or the
previous best. -/
theorem step_some_cases (tol : ℚ) (acc : Option (Nat × ℚ)) (x : Nat × ℚ)
    (i1 : Nat) (d1 : ℚ)
    (h : find_best_match_step tol acc x = some (i1, d1)) :
    ((i1, d1) = x ∧ d1 ≤ tol) ∨ acc = some (i1, d1) := by
  cases acc with
  | none =>
      simp only [find_best_match_step] at h
      split_ifs at h with hle
      · cases h
        exact Or.inl ⟨rfl, hle⟩
  | some p =>
      obtain ⟨i0, d0⟩ := p
      simp only [find_best_match_step] at h
      split_ifs at h with hc
      · cases h
        exact Or.inl ⟨rfl, hc.2⟩
      · cases h
        exact Or.inr rfl

/-- Evaluation of the loop step from an empty best on a candidate within
tolerance. -/
theorem step_eval_none_pos (tol : ℚ) (x : Nat × ℚ) (h : x.2 ≤ tol) :
    find_best_match_step tol none x = some x := by
  simp only [find_best_match_step]
  rw [if_pos h]

/-- Evaluation of the loop step when the new candidate improves the best. -/
theorem step_eval_some_pos (tol : ℚ) (i0 : Nat) (d0 : ℚ) (x : Nat × ℚ)
    (h : x.2 < d0 ∧ x.2 ≤ tol) :
    find_best_match_step tol (some (i0, d0)) x = some x := by
  simp only [find_best_match_step]
  rw [if_pos h]

/-- Evaluation of the loop step when the new candidate does not improve the
best. -/
theorem step_eval_some_neg (tol : ℚ) (i0 : Nat) (d0 : ℚ) (x : Nat × ℚ)
    (h : ¬(x.2 < d0 ∧ x.2 ≤ tol)) :
    find_best_match_step tol (some (i0, d0)) x = some (i0, d0) := by
  simp only [find_best_match_step]
  rw [if_neg h]

/-- Invariant of the `find_best_match` fold: starting from a best whose
distance (if any) is within tolerance, the fold ends empty iff it started
empty and every scanned distance exceeds the tolerance; and a final best is
within tolerance, comes from the start or the list, is a lower bound of all
within-tolerance scanned distances, and never exceeds the starting best. -/
theorem fold_spec (tol : ℚ) (l : List (Nat × ℚ)) :
    ∀ acc : Option (Nat × ℚ),
      (∀ i0 d0, acc = some (i0, d0) → d0 ≤ tol) →
      ((l.foldl (find_best_match_step tol) acc = none ↔
          (acc = none ∧ ∀ p ∈ l, tol < p.2))
      ∧ ∀ i d, l.foldl (find_best_match_step tol) acc = some (i, d) →
          d ≤ tol
          ∧ (acc = some (i, d) ∨ (i, d) ∈ l)
          ∧ (∀ p ∈ l, d ≤ p.2 ∨ tol < p.2)
          ∧ (∀ i0 d0, acc = some (i0, d0) → d ≤ d0)) := by
  induction l with
  | nil =>
      intro acc hacc
      refine ⟨by simp, ?_⟩
      intro i d h
      simp only [List.foldl_nil] at h
      refine ⟨hacc i d h, Or.inl h, by simp, ?_⟩
      intro i0 d0 h0
      rw [h0] at h
      cases h
      exact le_refl d
  | cons x xs ih =>
      intro acc hacc
      have hstep : ∀ i1 d1,
          find_best_match_step tol acc x = some (i1, d1) → d1 ≤ tol := by
        intro i1 d1 h1
        rcases step_some_cases tol acc x i1 d1 h1 with ⟨_, hle⟩ | hacc1
        · exact hle
        · exact hacc i1 d1 hacc1
      obtain ⟨ihnone, ihsome⟩ := ih (find_best_match_step tol acc x) hstep
      constructor
      · rw [List.foldl_cons, ihnone, step_none_iff, List.forall_mem_cons]
        tauto
      · intro i d h
        rw [List.foldl_cons] at h
        obtain ⟨hdtol, hmem, hmin, hle⟩ := ihsome i d h
        refine ⟨hdtol, ?_, ?_, ?_⟩
        · rcases hmem with hacc1 | hxs
          · rcases step_some_cases tol acc x i d hacc1 with ⟨hx, _⟩ | ha
            · exact Or.inr (by rw [hx]; exact List.mem_cons_self x xs)
            · exact Or.inl ha
          · exact Or.inr (List.mem_cons_of_mem x hxs)
        · intro p hp
          rcases List.mem_cons.mp hp with hpx | hpxs
          · subst hpx
            cases acc with
            | none =>
                by_cases hx : p.2 ≤ tol
                · exact Or.inl (hle p.1 p.2 (step_eval_none_pos tol p hx))
                · exact Or.inr (lt_of_not_le hx)
            | some q =>
                obtain ⟨i0, d0⟩ := q
                by_cases hc : p.2 < d0 ∧ p.2 ≤ tol
                · exact Or.inl (hle p.1 p.2 (step_eval_some_pos tol i0 d0 p hc))
                · rw [not_and_or, not_lt, not_le] at hc
                  rcases hc with hge | hgt
                  · have hd0 : d ≤ d0 := by
                      refine hle i0 d0 (step_eval_some_neg tol i0 d0 p ?_)
                      rw [not_and_or, not_lt]
                      exact Or.inl hge
                    exact Or.inl (le_trans hd0 hge)
                  · exact Or.inr hgt
          · exact hmin p hpxs
        · intro i0 d0 h0
          subst h0
          by_cases hc : x.2 < d0 ∧ x.2 ≤ tol
          · have := hle x.1 x.2 (step_eval_some_pos tol i0 d0 x hc)
            linarith [hc.1]
          · exact hle i0 d0 (step_eval_some_neg tol i0 d0 x hc)

/-- Every nonempty list of rationals has a least element. -/
theorem exists_list_min : ∀ (l : List ℚ), l ≠ [] →
    ∃ m, m ∈ l ∧ ∀ y ∈ l, m ≤ y := by
  intro l
  induction l with
  | nil => intro h; exact absurd rfl h
  | cons x xs ih =>
      intro _
      cases xs with
      | nil =>
          refine ⟨x, List.mem_cons_self x [], ?_⟩
          intro y hy
          rcases List.mem_cons.mp hy with rfl | hy
          · exact le_refl y
          · cases hy
      | cons z zs =>
          obtain ⟨m, hm, hall⟩ := ih (by simp)
          by_cases hxm : x ≤ m
          · refine ⟨x, List.mem_cons_self x (z :: zs), ?_⟩
            intro y hy
            rcases List.mem_cons.mp hy with rfl | hy
            · exact le_refl y
            · exact le_trans hxm (hall y hy)
          · refine ⟨m, List.mem_cons_of_mem x hm, ?_⟩
            intro y hy
            rcases List.mem_cons.mp hy with rfl | hy
            · exact le_of_not_le hxm
            · exact hall y hy

/-- C7: against a nonempty candidate list, `find_best_match` keeps the
globally minimal distance `m`, reports a match iff `m ≤ tolerance`, and on a
match returns exactly `m` with confidence `1 - m / tolerance`, which lies in
`[0, 1]` because Euclidean distances are nonnegative; in particular a
minimal distance of exactly `tolerance` is accepted with confidence `0`, and
when every distance strictly exceeds `tolerance` no match is reported. -/
theorem c7_find_best_match {Emb : Type} (dist : Emb → Emb → ℚ) (target : Emb)
    (candidates : List (Nat × Emb)) (tolerance : ℚ)
    (hne : candidates ≠ []) (htol : 0 < tolerance)
    (hnn : ∀ c ∈ candidates, 0 ≤ dist target c.2) :
    ∃ m, m ∈ candidates.map (fun c => dist target c.2)
      ∧ (∀ d ∈ candidates.map (fun c => dist target c.2), m ≤ d)
      ∧ ((find_best_match dist target candidates tolerance).isSome
          ↔ m ≤ tolerance)
      ∧ ∀ i d conf,
          find_best_match dist target candidates tolerance = some (i, d, conf)
          → d = m ∧ conf = 1 - d / tolerance ∧ 0 ≤ conf ∧ conf ≤ 1 := by
  have hfold : candidates.foldl
      (fun best c => find_best_match_step tolerance best (c.1, dist target c.2))
      none
      = (candidates.map (fun c => (c.1, dist target c.2))).foldl
          (find_best_match_step tolerance) none := by
    rw [List.foldl_map]
  have hds : (candidates.map (fun c => (c.1, dist target c.2))).map Prod.snd
      = candidates.map (fun c => dist target c.2) := by
    rw [List.map_map]
    rfl
  obtain ⟨specnone, specsome⟩ :=
    fold_spec tolerance (candidates.map (fun c => (c.1, dist target c.2))) none
      (by intro i0 d0 h; cases h)
  cases hres : (candidates.map (fun c => (c.1, dist target c.2))).foldl
      (find_best_match_step tolerance) none with
  | none =>
      have hall : ∀ p ∈ candidates.map (fun c => (c.1, dist target c.2)),
          tolerance < p.2 := (specnone.mp hres).2
      obtain ⟨m, hm, hmin⟩ :=
        exists_list_min (candidates.map (fun c => dist target c.2))
          (by simpa using hne)
      have hnone : find_best_match dist target candidates tolerance = none := by
        unfold find_best_match
        rw [hfold, hres]
      refine ⟨m, hm, hmin, ?_, ?_⟩
      · rw [hnone]
        simp only [Option.isSome_none, Bool.false_eq_true, false_iff, not_le]
        rw [← hds] at hm
        obtain ⟨p, hp, hpm⟩ := List.mem_map.mp hm
        exact hpm ▸ hall p hp
      · intro i d conf hic
        rw [hnone] at hic
        cases hic
  | some q =>
      obtain ⟨bi, bd⟩ := q
      obtain ⟨hdtol, hmem, hminor, _⟩ := specsome bi bd hres
      rcases hmem with hcc | hmemp
      · exact Option.noConfusion hcc
      have hminall : ∀ y ∈ candidates.map (fun c => dist target c.2), bd ≤ y := by
        intro y hy
        rw [← hds] at hy
        obtain ⟨p, hp, hpy⟩ := List.mem_map.mp hy
        rcases hminor p hp with h | h
        · exact hpy ▸ h
        · exact hpy ▸ le_trans hdtol (le_of_lt h)
      have hbd_mem : bd ∈ candidates.map (fun c => dist target c.2) := by
        rw [← hds]
        exact List.mem_map.mpr ⟨(bi, bd), hmemp, rfl⟩
      have hval : find_best_match dist target candidates tolerance
          = some (bi, bd, 1 - bd / tolerance) := by
        unfold find_best_match
        rw [hfold, hres]
      refine ⟨bd, hbd_mem, hminall, ?_, ?_⟩
      · rw [hval]
        simp only [Option.isSome_some, true_iff]
        exact hdtol
      · intro i d conf hic
        rw [hval] at hic
        have h0d : 0 ≤ bd := by
          obtain ⟨c, hc, hcd⟩ := List.mem_map.mp hbd_mem
          exact hcd ▸ hnn c hc
        obtain ⟨rfl, rfl, rfl⟩ : i = bi ∧ d = bd ∧ conf = 1 - bd / tolerance := by
          cases hic
          exact ⟨rfl, rfl, rfl⟩
        refine ⟨rfl, rfl, ?_, ?_⟩
        · have hd1 : d / tolerance ≤ 1 := (div_le_one htol).mpr hdtol
          linarith
        · have hd0 : 0 ≤ d / tolerance := div_nonneg h0d (le_of_lt htol)
          linarith

/-- C7 witness: the search characterization applied to a concrete gallery
whose nearest candidate sits at distance exactly the tolerance. -/
theorem c7_find_best_match_witness :
    ([((1 : Nat), (3 : ℚ)/5), (2, 2)] ≠ ([] : List (Nat × ℚ))) ∧
    ((0 : ℚ) < 3/5) ∧
    (∀ c ∈ [((1 : Nat), (3 : ℚ)/5), (2, 2)], 0 ≤ qdist 0 c.2) ∧
    (∃ m, m ∈ [((1 : Nat), (3 : ℚ)/5), (2, 2)].map (fun c => qdist 0 c.2)
      ∧ (∀ d ∈ [((1 : Nat), (3 : ℚ)/5), (2, 2)].map (fun c => qdist 0 c.2),
          m ≤ d)
      ∧ ((find_best_match qdist 0 [((1 : Nat), (3 : ℚ)/5), (2, 2)]
            (3/5)).isSome ↔ m ≤ 3/5)
      ∧ ∀ i d conf,
          find_best_match qdist 0 [((1 : Nat), (3 : ℚ)/5), (2, 2)] (3/5)
              = some (i, d, conf)
          → d = m ∧ conf = 1 - d / (3/5) ∧ 0 ≤ conf ∧ conf ≤ 1) :=
  ⟨List.cons_ne_nil _ _, by norm_num,
   by
    intro c _
    unfold qdist
    exact abs_nonneg _,
   c7_find_best_match qdist 0 [((1 : Nat), (3 : ℚ)/5), (2, 2)] (3/5)
     (List.cons_ne_nil _ _) (by norm_num)
     (by
       intro c _
       unfold qdist
       exact abs_nonneg _)⟩

end SmartAttendance
